import Mathlib

/-!
Shallow embedding of the persistence-backed entity managers of the
Unit-Testing repository:

* `task_bank` variant: `models/account.py` (`Account`) and
  `services/bank_service.py` (`BankService`);
* `task-management-system1` variant: `models/task.py` (`Task`) and
  `services/task_service.py` (`TaskService`);
* `pytest-1/python/bank_account.py` (`BankAccount`).

Modelling conventions:

* Python `float` amounts and balances are modelled as exact rationals `ℚ`
  (the claims concern comparisons and exact `+`/`-`, not rounding).
* Methods that can raise `ValueError` return `Except String α`; the error
  string is the message passed to `ValueError`.  Pure functions are total,
  which captures "never raises".
* In-place mutation of objects held in a Python `dict`/`list` is modelled
  by explicit state passing: each service operation takes the collection
  and returns the new collection, together with the returned value and a
  `flushed` flag recording whether the save method was invoked.
* Python dictionaries are association lists with unique keys in insertion
  order: lookup finds the first binding, assignment replaces the first
  binding in place or appends a fresh one.
-/

namespace UnitTesting

/-- Values stored in the plain field-map (`dict`) serialization: strings,
rational numbers (Python floats) and integers. -/
inductive DVal where
  | s (v : String)
  | q (v : ℚ)
  | i (v : Int)
  deriving DecidableEq, Repr

/-- Lookup of a key in a Python-dict-as-association-list. -/
def dictFind (d : List (String × DVal)) (k : String) : Option DVal :=
  match d with
  | [] => none
  | (k2, v) :: rest => if k2 = k then some v else dictFind rest k

/-! ## task_bank/models/account.py -/

/-- `Account`: a bank account (`account.py`, `__init__`). -/
structure Account where
  account_number : String
  account_holder : String
  balance : ℚ
  deriving DecidableEq, Repr

/-- `Account.deposit`: raises `ValueError` unless the amount is positive,
otherwise adds it to the balance (`account.py` lines 18-29). -/
def Account.deposit (a : Account) (amount : ℚ) : Except String Account :=
  if amount ≤ 0 then Except.error "Deposit amount must be positive."
  else Except.ok { a with balance := a.balance + amount }

/-- `Account.withdraw`: raises `ValueError` unless `0 < amount ≤ balance`,
otherwise subtracts it from the balance (`account.py` lines 31-44). -/
def Account.withdraw (a : Account) (amount : ℚ) : Except String Account :=
  if amount ≤ 0 then Except.error "Withdrawal amount must be positive."
  else if a.balance < amount then Except.error "Insufficient balance."
  else Except.ok { a with balance := a.balance - amount }

/-- `Account.to_dict`: the field map of an account. -/
def Account.to_dict (a : Account) : List (String × DVal) :=
  [("account_number", DVal.s a.account_number),
   ("account_holder", DVal.s a.account_holder),
   ("balance", DVal.q a.balance)]

/-- `Account.from_dict`: rebuilds an `Account` from a field map; `none`
models the `KeyError`/`TypeError` Python raises when a field is missing or
has the wrong shape. -/
def Account.from_dict (d : List (String × DVal)) : Option Account :=
  match dictFind d "account_number", dictFind d "account_holder",
        dictFind d "balance" with
  | some (DVal.s num), some (DVal.s holder), some (DVal.q bal) =>
      some ⟨num, holder, bal⟩
  | _, _, _ => none

/-! ## task-management-system1/models/task.py -/

/-- `Task`: a task record (`task.py`, `__init__`). -/
structure Task where
  task_id : Int
  title : String
  description : String
  due_date : String
  status : String
  deriving DecidableEq, Repr

/-- `Task.to_dict`: the field map of a task. -/
def Task.to_dict (t : Task) : List (String × DVal) :=
  [("task_id", DVal.i t.task_id),
   ("title", DVal.s t.title),
   ("description", DVal.s t.description),
   ("due_date", DVal.s t.due_date),
   ("status", DVal.s t.status)]

/-- `Task.from_dict`: rebuilds a `Task` from a field map. -/
def Task.from_dict (d : List (String × DVal)) : Option Task :=
  match dictFind d "task_id", dictFind d "title", dictFind d "description",
        dictFind d "due_date", dictFind d "status" with
  | some (DVal.i id), some (DVal.s ti), some (DVal.s de), some (DVal.s du),
    some (DVal.s st) => some ⟨id, ti, de, du, st⟩
  | _, _, _, _, _ => none

/-! ## task-management-system1/services/task_service.py

`TaskService` keeps `self.tasks : List[Task]` and calls `save_tasks` after
each successful mutation.  Each operation below returns the new task list
plus a `flushed` flag recording whether `save_tasks` was invoked. -/

/-- `TaskService.get_task`: first task with the given id, or `None`. -/
def get_task (tasks : List Task) (id : Int) : Option Task :=
  match tasks with
  | [] => none
  | t :: ts => if t.task_id = id then some t else get_task ts id

/-- Value of `max([task.task_id for task in self.tasks], default=0)`. -/
def maxIdD (tasks : List Task) : Int :=
  match tasks.map (fun t => t.task_id) with
  | [] => 0
  | x :: xs => xs.foldl max x

/-- Result of `TaskService.create_task`. -/
structure CreateResult where
  result : Except String Task
  tasks : List Task
  flushed : Bool
  deriving Repr

/-- `TaskService.create_task`: empty mandatory field raises `ValueError`
(no mutation, no flush); otherwise the new task gets id
`max(existing ids, default 0) + 1`, status `"To Do"`, is appended, and the
list is flushed (`task_service.py` lines 54-79). -/
def create_task (tasks : List Task) (title description due_date : String) :
    CreateResult :=
  if title = "" ∨ description = "" ∨ due_date = "" then
    ⟨Except.error "All fields (title, description, due_date) are required.",
      tasks, false⟩
  else
    let next_id := maxIdD tasks + 1
    let new_task : Task := ⟨next_id, title, description, due_date, "To Do"⟩
    ⟨Except.ok new_task, tasks ++ [new_task], true⟩

/-- In-place field overwrite of the first task with the given id, as
performed by `update_task` on the object returned by `get_task`. -/
def updateFirstById (tasks : List Task) (id : Int)
    (title description due_date status : String) : List Task :=
  match tasks with
  | [] => []
  | t :: ts =>
    if t.task_id = id then
      { t with title := title, description := description,
               due_date := due_date, status := status } :: ts
    else t :: updateFirstById ts id title description due_date status

/-- Result of `TaskService.update_task`: `ok none` is the Python `None`
return for a missing task. -/
structure UpdateResult where
  result : Except String (Option Task)
  tasks : List Task
  flushed : Bool
  deriving Repr

/-- `TaskService.update_task`: missing task returns `None` (no validation,
no flush); empty mandatory field raises `ValueError` (no mutation, no
flush); otherwise the four mutable fields of the found task are
overwritten and the list is flushed (`task_service.py` lines 98-130). -/
def update_task (tasks : List Task) (id : Int)
    (title description due_date status : String) : UpdateResult :=
  match get_task tasks id with
  | none => ⟨Except.ok none, tasks, false⟩
  | some t =>
    if title = "" ∨ description = "" ∨ due_date = "" ∨ status = "" then
      ⟨Except.error
          "All fields (title, description, due_date, status) are required for update.",
        tasks, false⟩
    else
      ⟨Except.ok (some { t with title := title, description := description,
                                due_date := due_date, status := status }),
        updateFirstById tasks id title description due_date status, true⟩

/-- Removal of the first task with the given id, as performed by
`self.tasks.remove(task)` on the object returned by `get_task`. -/
def removeFirstById (tasks : List Task) (id : Int) : List Task :=
  match tasks with
  | [] => []
  | t :: ts => if t.task_id = id then ts else t :: removeFirstById ts id

/-- Result of `TaskService.delete_task`. -/
structure DeleteResult where
  deleted : Bool
  tasks : List Task
  flushed : Bool
  deriving DecidableEq, Repr

/-- `TaskService.delete_task`: removes the first task with the given id and
flushes, returning `True`; returns `False` without mutating or flushing
when no task matches (`task_service.py` lines 132-147). -/
def delete_task (tasks : List Task) (id : Int) : DeleteResult :=
  match get_task tasks id with
  | some _ => ⟨true, removeFirstById tasks id, true⟩
  | none => ⟨false, tasks, false⟩

/-! ## task_bank/services/bank_service.py

`BankService` keeps `self.accounts : Dict[str, Account]` and calls
`save_accounts` after each successful mutation.  The dictionary is an
association list in insertion order; each operation returns the new
dictionary plus a `flushed` flag recording whether `save_accounts` was
invoked. -/

/-- Python `dict` read: `self.accounts.get(k)` (also `get_account`). -/
def dictGet (accs : List (String × Account)) (k : String) : Option Account :=
  match accs with
  | [] => none
  | (k2, a) :: rest => if k2 = k then some a else dictGet rest k

/-- Python `dict` write `self.accounts[k] = a` (and, identically, in-place
mutation of the object stored at key `k`): replaces the binding when the
key is present, otherwise appends a fresh binding. -/
def dictSet (accs : List (String × Account)) (k : String) (a : Account) :
    List (String × Account) :=
  match accs with
  | [] => [(k, a)]
  | (k2, a2) :: rest =>
    if k2 = k then (k2, a) :: rest else (k2, a2) :: dictSet rest k a

/-- Result of a mutating `BankService` operation that returns no value. -/
structure TransferResult where
  result : Except String Unit
  accounts : List (String × Account)
  flushed : Bool
  deriving Repr

/-- `BankService.transfer` (`bank_service.py` lines 128-153): fetches both
account objects, raises `ValueError` if either is missing; otherwise
withdraws from the source object, deposits into the destination object and
saves; a `ValueError` from either mutation propagates and no save happens.
The destination object seen by `deposit` is the source object itself when
the two account numbers coincide (Python aliasing). -/
def transfer (accounts : List (String × Account))
    (from_acc to_acc : String) (amount : ℚ) : TransferResult :=
  match dictGet accounts from_acc, dictGet accounts to_acc with
  | some from_account, some to_account =>
    match from_account.withdraw amount with
    | Except.error e => ⟨Except.error e, accounts, false⟩
    | Except.ok fa2 =>
      match (if to_acc = from_acc then fa2 else to_account).deposit amount with
      | Except.error e => ⟨Except.error e, dictSet accounts from_acc fa2, false⟩
      | Except.ok ta2 =>
        ⟨Except.ok (), dictSet (dictSet accounts from_acc fa2) to_acc ta2, true⟩
  | _, _ => ⟨Except.error "One or both accounts not found.", accounts, false⟩

/-- `BankService.deposit` (`bank_service.py` lines 96-112). -/
def BankService.deposit (accounts : List (String × Account))
    (num : String) (amount : ℚ) : TransferResult :=
  match dictGet accounts num with
  | none => ⟨Except.error ("Account " ++ num ++ " not found."), accounts, false⟩
  | some a =>
    match a.deposit amount with
    | Except.error e => ⟨Except.error e, accounts, false⟩
    | Except.ok a2 => ⟨Except.ok (), dictSet accounts num a2, true⟩

/-- `BankService.withdraw` (`bank_service.py` lines 114-126). -/
def BankService.withdraw (accounts : List (String × Account))
    (num : String) (amount : ℚ) : TransferResult :=
  match dictGet accounts num with
  | none => ⟨Except.error ("Account " ++ num ++ " not found."), accounts, false⟩
  | some a =>
    match a.withdraw amount with
    | Except.error e => ⟨Except.error e, accounts, false⟩
    | Except.ok a2 => ⟨Except.ok (), dictSet accounts num a2, true⟩

/-- Decimal digit list of a natural number, least significant digit last:
the character content of Python `str(n)`. -/
def natDigits (n : ℕ) : List Char :=
  if h : n < 10 then [Nat.digitChar n]
  else natDigits (n / 10) ++ [Nat.digitChar (n % 10)]
  termination_by n
  decreasing_by exact Nat.div_lt_self (by omega) (by decide)

/-- Python format `f"{n:04}"`: the decimal digits left-padded with zeros to
width four (longer representations are not truncated). -/
def padZero4 (s : List Char) : List Char :=
  if s.length < 4 then List.replicate (4 - s.length) '0' ++ s else s

/-- `BankService._generate_account_number` applied to a collection of the
given size: `f"ACC{size + 1:04}"` (`bank_service.py` lines 75-79). -/
def accCode (n : ℕ) : String :=
  ⟨'A' :: 'C' :: 'C' :: padZero4 (natDigits n)⟩

/-- Numeric value of a digit string (proof device used to invert
`natDigits` and so show account codes are pairwise distinct). -/
def digitsVal (l : List Char) : ℕ :=
  l.foldl (fun acc c => acc * 10 + (c.toNat - 48)) 0

/-- Account numbers generated by the first `k` successful creations on a
store that started empty: `ACC0001`, `ACC0002`, ... -/
def codes (k : ℕ) : List String :=
  (List.range k).map (fun i => accCode (i + 1))

/-- Result of `BankService.create_account`. -/
structure BankCreateResult where
  result : Except String Account
  accounts : List (String × Account)
  flushed : Bool
  deriving Repr

/-- `BankService.create_account` (`bank_service.py` lines 53-73): negative
initial balance raises `ValueError`; otherwise a fresh account number is
generated from the current collection size, the account is stored under it
and the store is saved. -/
def create_account (accounts : List (String × Account))
    (account_holder : String) (initial_balance : ℚ) : BankCreateResult :=
  if initial_balance < 0 then
    ⟨Except.error "Initial balance cannot be negative.", accounts, false⟩
  else
    let num := accCode (accounts.length + 1)
    let a : Account := ⟨num, account_holder, initial_balance⟩
    ⟨Except.ok a, dictSet accounts num a, true⟩

/-! ## Persistence: load and save (both variants)

`load_accounts` / `load_tasks` read the backing file and parse it as JSON;
`save_accounts` / `save_tasks` overwrite it.  The outcome of the raw I/O
and JSON parsing is modelled explicitly, so the Lean functions are total:
totality of `load` is exactly the claim that it never raises. -/

/-- Outcome of `open(...)` + `json.load(...)` as seen by the `try` block:
the file may be missing (`FileNotFoundError`), syntactically invalid
(`json.JSONDecodeError`), readable with some other failure
(`except Exception`), or parsed into typed content. -/
inductive LoadInput (α : Type) where
  | missing
  | malformed
  | otherFailure (msg : String)
  | content (data : α)

/-- Log level of the single message emitted by a `load` call. -/
inductive LogLevel where
  | info
  | warning
  | error
  | exception
  deriving DecidableEq, Repr

/-- `BankService.load_accounts` (`bank_service.py` lines 20-37): missing
file → empty store, warning; malformed JSON → empty store, error; any
other failure (including a field map rejected by `Account.from_dict`) →
empty store, exception log; valid content → one account per entry.  Total:
never raises to the caller. -/
def load_accounts
    (input : LoadInput (List (String × List (String × DVal)))) :
    List (String × Account) × LogLevel :=
  match input with
  | LoadInput.missing => ([], LogLevel.warning)
  | LoadInput.malformed => ([], LogLevel.error)
  | LoadInput.otherFailure _ => ([], LogLevel.exception)
  | LoadInput.content data =>
    match data.mapM (fun p =>
        (Account.from_dict p.2).map (fun a => (p.1, a))) with
    | some accs => (accs, LogLevel.info)
    | none => ([], LogLevel.exception)

/-- `TaskService.load_tasks` (`task_service.py` lines 26-41), same error
policy as `load_accounts`. -/
def load_tasks (input : LoadInput (List (List (String × DVal)))) :
    List Task × LogLevel :=
  match input with
  | LoadInput.missing => ([], LogLevel.warning)
  | LoadInput.malformed => ([], LogLevel.error)
  | LoadInput.otherFailure _ => ([], LogLevel.exception)
  | LoadInput.content data =>
    match data.mapM Task.from_dict with
    | some ts => (ts, LogLevel.info)
    | none => ([], LogLevel.exception)

/-- Outcome of the file write attempted by a `save` call. -/
inductive WriteOutcome where
  | ok
  | ioError (msg : String)

/-- `BankService.save_accounts` (`bank_service.py` lines 41-51): on any
write failure it logs and re-raises, so the error propagates to the
caller. -/
def save_accounts (accounts : List (String × Account))
    (w : WriteOutcome) : Except String Unit :=
  match w with
  | WriteOutcome.ok => Except.ok ()
  | WriteOutcome.ioError msg => Except.error msg

/-- `TaskService.save_tasks` (`task_service.py` lines 44-52): on any write
failure it logs the exception and falls through, returning `None`; the
error is swallowed, not re-raised. -/
def save_tasks (tasks : List Task) (w : WriteOutcome) : Except String Unit :=
  match w with
  | WriteOutcome.ok => Except.ok ()
  | WriteOutcome.ioError _ => Except.ok ()

/-! ## Operation sequences (for the identity-freshness claim C6) -/

/-- One call to a mutating `BankService` method. -/
inductive BankOp where
  | create (account_holder : String) (initial_balance : ℚ)
  | deposit (num : String) (amount : ℚ)
  | withdraw (num : String) (amount : ℚ)
  | transfer (from_acc to_acc : String) (amount : ℚ)

/-- Effect of one `BankService` call on the store, together with the
account number assigned when the call was a successful `create_account`. -/
def bankStep (accounts : List (String × Account)) (op : BankOp) :
    List (String × Account) × Option String :=
  match op with
  | BankOp.create h b =>
    let r := create_account accounts h b
    match r.result with
    | Except.ok a => (r.accounts, some a.account_number)
    | Except.error _ => (r.accounts, none)
  | BankOp.deposit n amt => ((BankService.deposit accounts n amt).accounts, none)
  | BankOp.withdraw n amt => ((BankService.withdraw accounts n amt).accounts, none)
  | BankOp.transfer f t amt => ((transfer accounts f t amt).accounts, none)

/-- Fold step accumulating the store and the assigned account numbers. -/
def bankAccum (st : List (String × Account) × List String) (op : BankOp) :
    List (String × Account) × List String :=
  ((bankStep st.1 op).1, st.2 ++ (bankStep st.1 op).2.toList)

/-- Store and list of assigned account numbers after a sequence of
`BankService` calls on an instance whose store was populated at
construction by `load_accounts` (the service loads the backing file in
`__init__`, so the first operation may see a non-empty store). -/
def bankRunFrom (accs : List (String × Account)) (ops : List BankOp) :
    List (String × Account) × List String :=
  ops.foldl bankAccum (accs, [])

/-- Store and list of assigned account numbers after a sequence of
`BankService` calls on an instance that started with an empty store. -/
def bankRun (ops : List BankOp) : List (String × Account) × List String :=
  ops.foldl bankAccum ([], [])

/-- One call to a mutating `TaskService` method. -/
inductive TaskOp where
  | create (title description due_date : String)
  | update (id : Int) (title description due_date status : String)
  | delete (id : Int)

/-- Effect of one `TaskService` call on the task list, together with the
id assigned when the call was a successful `create_task`. -/
def taskStep (tasks : List Task) (op : TaskOp) : List Task × Option Int :=
  match op with
  | TaskOp.create t d dd =>
    let r := create_task tasks t d dd
    match r.result with
    | Except.ok nt => (r.tasks, some nt.task_id)
    | Except.error _ => (r.tasks, none)
  | TaskOp.update id t d dd st => ((update_task tasks id t d dd st).tasks, none)
  | TaskOp.delete id => ((delete_task tasks id).tasks, none)

/-- Fold step accumulating the task list and the assigned task ids. -/
def taskAccum (st : List Task × List Int) (op : TaskOp) :
    List Task × List Int :=
  ((taskStep st.1 op).1, st.2 ++ (taskStep st.1 op).2.toList)

/-- Task list and list of assigned task ids after a sequence of
`TaskService` calls on an instance that started with an empty list. -/
def taskRun (ops : List TaskOp) : List Task × List Int :=
  ops.foldl taskAccum ([], [])

/-! ## pytest-1/python/bank_account.py -/

/-- `BankAccount` (`bank_account.py`): balance plus transaction log. -/
structure BankAccount where
  balance : ℚ
  transactions : List String
  deriving DecidableEq, Repr

/-- `BankAccount.deposit`: mutates only when the amount is positive, never
raises, and returns the (possibly updated) balance. -/
def BankAccount.deposit (b : BankAccount) (amount : ℚ) : BankAccount × ℚ :=
  let b2 := if 0 < amount then
      { balance := b.balance + amount,
        transactions := b.transactions ++ ["Deposited " ++ toString amount] }
    else b
  (b2, b2.balance)

/-- `BankAccount.withdraw`: mutates only when `0 < amount ≤ balance`,
never raises, and returns the (possibly updated) balance. -/
def BankAccount.withdraw (b : BankAccount) (amount : ℚ) : BankAccount × ℚ :=
  let b2 := if 0 < amount ∧ amount ≤ b.balance then
      { balance := b.balance - amount,
        transactions := b.transactions ++ ["Withdrew " ++ toString amount] }
    else b
  (b2, b2.balance)

/-- `BankAccount.get_balance`. -/
def BankAccount.get_balance (b : BankAccount) : ℚ := b.balance

/-! ## Claims C1, C2, C7 -/

theorem withdraw_ok_of {a : Account} {amt : ℚ} (h1 : 0 < amt)
    (h2 : amt ≤ a.balance) :
    a.withdraw amt = Except.ok { a with balance := a.balance - amt } := by
  unfold Account.withdraw
  rw [if_neg (by linarith), if_neg (by linarith)]

theorem withdraw_error_of {a : Account} {amt : ℚ}
    (h : amt ≤ 0 ∨ a.balance < amt) :
    ∃ msg, a.withdraw amt = Except.error msg := by
  rcases h with hle | hgt
  · exact ⟨_, by unfold Account.withdraw; rw [if_pos hle]⟩
  · by_cases hle : amt ≤ 0
    · exact ⟨_, by unfold Account.withdraw; rw [if_pos hle]⟩
    · exact ⟨_, by unfold Account.withdraw; rw [if_neg hle, if_pos hgt]⟩

theorem deposit_ok_of {a : Account} {amt : ℚ} (h : 0 < amt) :
    a.deposit amt = Except.ok { a with balance := a.balance + amt } := by
  unfold Account.deposit
  rw [if_neg (by linarith)]

theorem deposit_error_of {a : Account} {amt : ℚ} (h : amt ≤ 0) :
    ∃ msg, a.deposit amt = Except.error msg :=
  ⟨_, by unfold Account.deposit; rw [if_pos h]⟩

/-- Claim C1: withdrawing `a` with `0 < a ≤ b` from balance `b` yields
balance `b - a` (all other fields unchanged); withdrawing `a ≤ 0` or
`a > b` raises `ValueError` (and, the embedding being pure, leaves the
account unchanged). -/
theorem C1_withdraw_spec (a : Account) (amt : ℚ) :
    (0 < amt → amt ≤ a.balance →
      a.withdraw amt = Except.ok { a with balance := a.balance - amt })
    ∧ ((amt ≤ 0 ∨ a.balance < amt) →
      ∃ msg, a.withdraw amt = Except.error msg) :=
  ⟨fun h1 h2 => withdraw_ok_of h1 h2, fun h => withdraw_error_of h⟩

/-- Witness for C1 at a concrete account: withdrawing 50 from balance 150
succeeds with balance 100; withdrawing 200 from balance 150 errors. -/
theorem C1_withdraw_spec_witness :
    Account.withdraw ⟨"ACC0001", "Alice", 150⟩ 50
      = Except.ok ⟨"ACC0001", "Alice", 100⟩
    ∧ ∃ msg, Account.withdraw ⟨"ACC0001", "Alice", 150⟩ 200
      = Except.error msg := by
  constructor
  · have h := (C1_withdraw_spec ⟨"ACC0001", "Alice", 150⟩ 50).1
      (by norm_num) (by norm_num)
    have h2 : (150 : ℚ) - 50 = 100 := by norm_num
    rw [h2] at h
    exact h
  · exact (C1_withdraw_spec ⟨"ACC0001", "Alice", 150⟩ 200).2
      (Or.inr (by norm_num))

/-- Claim C2: depositing `a > 0` into balance `b` yields balance `b + a`
(all other fields unchanged); depositing `a ≤ 0` raises `ValueError` and
leaves the account unchanged. -/
theorem C2_deposit_spec (a : Account) (amt : ℚ) :
    (0 < amt →
      a.deposit amt = Except.ok { a with balance := a.balance + amt })
    ∧ (amt ≤ 0 → ∃ msg, a.deposit amt = Except.error msg) :=
  ⟨fun h => deposit_ok_of h, fun h => deposit_error_of h⟩

/-- Witness for C2 at a concrete account: depositing 50 into balance 100
succeeds with balance 150; depositing 0 errors. -/
theorem C2_deposit_spec_witness :
    Account.deposit ⟨"ACC0001", "Alice", 100⟩ 50
      = Except.ok ⟨"ACC0001", "Alice", 150⟩
    ∧ ∃ msg, Account.deposit ⟨"ACC0001", "Alice", 100⟩ 0
      = Except.error msg := by
  constructor
  · have h := (C2_deposit_spec ⟨"ACC0001", "Alice", 100⟩ 50).1 (by norm_num)
    have h2 : (100 : ℚ) + 50 = 150 := by norm_num
    rw [h2] at h
    exact h
  · exact (C2_deposit_spec ⟨"ACC0001", "Alice", 100⟩ 0).2 (by norm_num)

/-- Claim C7: the serialization round-trip `from_dict (to_dict e)` returns
the original entity, for both `Task` and `Account`. -/
theorem C7_round_trip (a : Account) (t : Task) :
    Account.from_dict (Account.to_dict a) = some a
    ∧ Task.from_dict (Task.to_dict t) = some t := by
  constructor <;> rfl

/-! ## Claims C8, C9 -/

theorem get_task_eq_none_of_forall {tasks : List Task} {id : Int}
    (h : ∀ t ∈ tasks, t.task_id ≠ id) : get_task tasks id = none := by
  induction tasks with
  | nil => rfl
  | cons t ts ih =>
    unfold get_task
    rw [if_neg (h t (List.mem_cons_self t ts))]
    exact ih fun u hu => h u (List.mem_cons_of_mem t hu)

theorem removeFirst_decomp {tasks : List Task} {id : Int}
    (h : ∃ t ∈ tasks, t.task_id = id) :
    ∃ l1 t l2, tasks = l1 ++ t :: l2 ∧ t.task_id = id
      ∧ (∀ u ∈ l1, u.task_id ≠ id)
      ∧ removeFirstById tasks id = l1 ++ l2 := by
  induction tasks with
  | nil => obtain ⟨t, ht, _⟩ := h; cases ht
  | cons t ts ih =>
    by_cases hc : t.task_id = id
    · exact ⟨[], t, ts, rfl, hc, by simp,
        by unfold removeFirstById; rw [if_pos hc]; rfl⟩
    · obtain ⟨u, hu, hid⟩ := h
      rcases List.mem_cons.mp hu with rfl | hu2
      · exact absurd hid hc
      · obtain ⟨l1, v, l2, heq, hvid, hl1, hrem⟩ := ih ⟨u, hu2, hid⟩
        refine ⟨t :: l1, v, l2, by rw [heq]; rfl, hvid, ?_, ?_⟩
        · intro w hw
          rcases List.mem_cons.mp hw with rfl | hw2
          · exact hc
          · exact hl1 w hw2
        · unfold removeFirstById
          rw [if_neg hc, hrem]
          rfl

theorem get_task_isSome_of_exists {tasks : List Task} {id : Int}
    (h : ∃ t ∈ tasks, t.task_id = id) :
    ∃ t, get_task tasks id = some t := by
  induction tasks with
  | nil => obtain ⟨t, ht, _⟩ := h; cases ht
  | cons t ts ih =>
    by_cases hc : t.task_id = id
    · exact ⟨t, by unfold get_task; rw [if_pos hc]⟩
    · obtain ⟨u, hu, hid⟩ := h
      rcases List.mem_cons.mp hu with rfl | hu2
      · exact absurd hid hc
      · obtain ⟨v, hv⟩ := ih ⟨u, hu2, hid⟩
        exact ⟨v, by unfold get_task; rw [if_neg hc]; exact hv⟩

/-- Claim C8: `delete_task` on a present id returns `True`, removes exactly
the first matching task and flushes; on an absent id it returns `False`,
leaves the list unchanged and does not flush. -/
theorem C8_delete_task_spec (tasks : List Task) (id : Int) :
    ((∃ t ∈ tasks, t.task_id = id) →
      (delete_task tasks id).deleted = true
      ∧ (delete_task tasks id).flushed = true
      ∧ ∃ l1 t l2, tasks = l1 ++ t :: l2 ∧ t.task_id = id
          ∧ (∀ u ∈ l1, u.task_id ≠ id)
          ∧ (delete_task tasks id).tasks = l1 ++ l2)
    ∧ ((∀ t ∈ tasks, t.task_id ≠ id) →
      delete_task tasks id = ⟨false, tasks, false⟩) := by
  constructor
  · intro h
    obtain ⟨t, ht⟩ := get_task_isSome_of_exists h
    obtain ⟨l1, u, l2, heq, huid, hl1, hrem⟩ := removeFirst_decomp h
    unfold delete_task
    rw [ht]
    exact ⟨rfl, rfl, l1, u, l2, heq, huid, hl1, hrem⟩
  · intro h
    unfold delete_task
    rw [get_task_eq_none_of_forall h]

/-- Witness for C8 at a concrete list: deleting id 2 from a two-task list
removes the second task and flushes; deleting id 7 is a no-op returning
`False`. -/
theorem C8_delete_task_spec_witness :
    ((delete_task [⟨1, "a", "b", "c", "To Do"⟩, ⟨2, "d", "e", "f", "To Do"⟩] 2).deleted = true
      ∧ (delete_task [⟨1, "a", "b", "c", "To Do"⟩, ⟨2, "d", "e", "f", "To Do"⟩] 2).flushed = true
      ∧ ∃ l1 t l2,
          [Task.mk 1 "a" "b" "c" "To Do", Task.mk 2 "d" "e" "f" "To Do"] = l1 ++ t :: l2
          ∧ t.task_id = 2 ∧ (∀ u ∈ l1, u.task_id ≠ 2)
          ∧ (delete_task [⟨1, "a", "b", "c", "To Do"⟩, ⟨2, "d", "e", "f", "To Do"⟩] 2).tasks = l1 ++ l2)
    ∧ delete_task [⟨1, "a", "b", "c", "To Do"⟩] 7 = ⟨false, [⟨1, "a", "b", "c", "To Do"⟩], false⟩ := by
  constructor
  · exact (C8_delete_task_spec _ 2).1
      ⟨⟨2, "d", "e", "f", "To Do"⟩, by simp, rfl⟩
  · exact (C8_delete_task_spec _ 7).2 (by intro t ht; simp at ht; simp [ht])

theorem updateFirstById_map_id (tasks : List Task) (id : Int)
    (title description due_date status : String) :
    (updateFirstById tasks id title description due_date status).map Task.task_id
      = tasks.map Task.task_id := by
  induction tasks with
  | nil => rfl
  | cons t ts ih =>
    unfold updateFirstById
    by_cases hc : t.task_id = id
    · rw [if_pos hc]
      simp
    · rw [if_neg hc]
      simp [ih]

/-- Claim C9: no operation after creation changes an entity's identity:
`update_task` preserves the `task_id` of every stored task, and successful
`Account.deposit` / `Account.withdraw` leave `account_number` and
`account_holder` unchanged. -/
theorem C9_identity_immutable :
    (∀ tasks id title description due_date status,
      ((update_task tasks id title description due_date status).tasks).map Task.task_id
        = tasks.map Task.task_id)
    ∧ (∀ (a a2 : Account) (amt : ℚ), a.deposit amt = Except.ok a2 →
        a2.account_number = a.account_number
        ∧ a2.account_holder = a.account_holder)
    ∧ (∀ (a a2 : Account) (amt : ℚ), a.withdraw amt = Except.ok a2 →
        a2.account_number = a.account_number
        ∧ a2.account_holder = a.account_holder) := by
  refine ⟨?_, ?_, ?_⟩
  · intro tasks id title description due_date status
    unfold update_task
    split
    · rfl
    · split
      · rfl
      · exact updateFirstById_map_id tasks id title description due_date status
  · intro a a2 amt h
    unfold Account.deposit at h
    by_cases hc : amt ≤ 0
    · rw [if_pos hc] at h; simp at h
    · rw [if_neg hc] at h
      injection h with h2
      rw [← h2]
      exact ⟨rfl, rfl⟩
  · intro a a2 amt h
    unfold Account.withdraw at h
    by_cases hc : amt ≤ 0
    · rw [if_pos hc] at h; simp at h
    · rw [if_neg hc] at h
      by_cases hc2 : a.balance < amt
      · rw [if_pos hc2] at h; simp at h
      · rw [if_neg hc2] at h
        injection h with h2
        rw [← h2]
        exact ⟨rfl, rfl⟩

/-- Witness for C9 at concrete inputs: a deposit of 50 and a withdrawal of
50 both preserve the account number and holder. -/
theorem C9_identity_immutable_witness :
    ((Account.mk "ACC0001" "Alice" 150).account_number
        = (Account.mk "ACC0001" "Alice" 100).account_number
      ∧ (Account.mk "ACC0001" "Alice" 150).account_holder
        = (Account.mk "ACC0001" "Alice" 100).account_holder)
    ∧ ((Account.mk "ACC0001" "Alice" 100).account_number
        = (Account.mk "ACC0001" "Alice" 150).account_number
      ∧ (Account.mk "ACC0001" "Alice" 100).account_holder
        = (Account.mk "ACC0001" "Alice" 150).account_holder) := by
  constructor
  · exact C9_identity_immutable.2.1 ⟨"ACC0001", "Alice", 100⟩ _ 50
      (by norm_num [Account.deposit])
  · exact C9_identity_immutable.2.2 ⟨"ACC0001", "Alice", 150⟩ _ 50
      (by norm_num [Account.withdraw])

/-! ## Claim C3 -/

theorem dictGet_dictSet_same (accs : List (String × Account)) (k : String)
    (a : Account) : dictGet (dictSet accs k a) k = some a := by
  induction accs with
  | nil => simp [dictSet, dictGet]
  | cons p rest ih =>
    obtain ⟨k2, a2⟩ := p
    unfold dictSet
    by_cases hc : k2 = k
    · rw [if_pos hc]
      unfold dictGet
      rw [if_pos hc]
    · rw [if_neg hc]
      unfold dictGet
      rw [if_neg hc]
      exact ih

theorem dictGet_dictSet_other (accs : List (String × Account))
    {k k2 : String} (a : Account) (h : k ≠ k2) :
    dictGet (dictSet accs k a) k2 = dictGet accs k2 := by
  induction accs with
  | nil => simp [dictSet, dictGet, h]
  | cons p rest ih =>
    obtain ⟨k3, a3⟩ := p
    unfold dictSet
    by_cases hc : k3 = k
    · rw [if_pos hc]
      unfold dictGet
      rw [if_neg (hc ▸ h), if_neg (hc ▸ h)]
    · rw [if_neg hc]
      unfold dictGet
      by_cases hc2 : k3 = k2
      · rw [if_pos hc2, if_pos hc2]
      · rw [if_neg hc2, if_neg hc2]
        exact ih

/-- Claim C3: when both accounts exist and are distinct, a transfer whose
debit fails validation (`amt ≤ 0` or `amt >` source balance) propagates the
error, changes no balance and does not flush; a transfer whose debit
succeeds credits the same amount to the destination and flushes, so the
source balance decreases and the destination balance increases by the
amount. -/
theorem C3_transfer_spec (accounts : List (String × Account))
    (from_acc to_acc : String) (fa ta : Account) (amt : ℚ)
    (hf : dictGet accounts from_acc = some fa)
    (ht : dictGet accounts to_acc = some ta)
    (hne : from_acc ≠ to_acc) :
    ((amt ≤ 0 ∨ fa.balance < amt) →
      (∃ msg, (transfer accounts from_acc to_acc amt).result
          = Except.error msg)
      ∧ (transfer accounts from_acc to_acc amt).accounts = accounts
      ∧ (transfer accounts from_acc to_acc amt).flushed = false)
    ∧ (0 < amt → amt ≤ fa.balance →
      (transfer accounts from_acc to_acc amt).result = Except.ok ()
      ∧ (transfer accounts from_acc to_acc amt).flushed = true
      ∧ dictGet (transfer accounts from_acc to_acc amt).accounts from_acc
          = some { fa with balance := fa.balance - amt }
      ∧ dictGet (transfer accounts from_acc to_acc amt).accounts to_acc
          = some { ta with balance := ta.balance + amt }) := by
  constructor
  · intro h
    obtain ⟨msg, hw⟩ := @withdraw_error_of fa amt h
    refine ⟨⟨msg, ?_⟩, ?_, ?_⟩ <;>
      simp only [transfer, hf, ht, hw]
  · intro h1 h2
    have hw := @withdraw_ok_of fa amt h1 h2
    have hd := @deposit_ok_of ta amt h1
    have hif :
        (if to_acc = from_acc then
            { fa with balance := fa.balance - amt }
          else ta) = ta := if_neg (Ne.symm hne)
    refine ⟨?_, ?_, ?_, ?_⟩ <;>
      simp only [transfer, hf, ht, hw, hif, hd]
    · rw [dictGet_dictSet_other _ _ (Ne.symm hne), dictGet_dictSet_same]
    · rw [dictGet_dictSet_same]

/-- Witness for C3: Alice at 150 and Bob at 0; transferring 50 succeeds
with Alice at 100, Bob at 50, and the store flushed. -/
theorem C3_transfer_spec_witness :
    (transfer [("ACC0001", ⟨"ACC0001", "Alice", 150⟩),
               ("ACC0002", ⟨"ACC0002", "Bob", 0⟩)]
        "ACC0001" "ACC0002" 50).result = Except.ok ()
    ∧ (transfer [("ACC0001", ⟨"ACC0001", "Alice", 150⟩),
                 ("ACC0002", ⟨"ACC0002", "Bob", 0⟩)]
        "ACC0001" "ACC0002" 50).flushed = true
    ∧ dictGet (transfer [("ACC0001", ⟨"ACC0001", "Alice", 150⟩),
                 ("ACC0002", ⟨"ACC0002", "Bob", 0⟩)]
        "ACC0001" "ACC0002" 50).accounts "ACC0001"
      = some ⟨"ACC0001", "Alice", 100⟩
    ∧ dictGet (transfer [("ACC0001", ⟨"ACC0001", "Alice", 150⟩),
                 ("ACC0002", ⟨"ACC0002", "Bob", 0⟩)]
        "ACC0001" "ACC0002" 50).accounts "ACC0002"
      = some ⟨"ACC0002", "Bob", 50⟩ := by
  have h := (C3_transfer_spec
      [("ACC0001", ⟨"ACC0001", "Alice", 150⟩),
       ("ACC0002", ⟨"ACC0002", "Bob", 0⟩)]
      "ACC0001" "ACC0002" ⟨"ACC0001", "Alice", 150⟩ ⟨"ACC0002", "Bob", 0⟩ 50
      rfl rfl (by decide)).2 (by norm_num) (by norm_num)
  have e1 : (150 : ℚ) - 50 = 100 := by norm_num
  have e2 : (0 : ℚ) + 50 = 50 := by norm_num
  rw [e1, e2] at h
  exact h

/-! ## Claims C4, C5 -/

/-- Claim C4: `load_accounts` and `load_tasks` are total (they never raise
for any read outcome) and, on a missing file, initialize an empty
collection logging a warning; on malformed JSON, initialize an empty
collection logging an error. -/
theorem C4_load_recovers :
    load_accounts LoadInput.missing = ([], LogLevel.warning)
    ∧ load_accounts LoadInput.malformed = ([], LogLevel.error)
    ∧ load_tasks LoadInput.missing = ([], LogLevel.warning)
    ∧ load_tasks LoadInput.malformed = ([], LogLevel.error) :=
  ⟨rfl, rfl, rfl, rfl⟩

/-- Counterexample to claim C5 as stated: in the task variant, a write
failure during `save_tasks` does not propagate — the call returns normally
(Python `None`), the exception having been logged and swallowed. -/
theorem C5_counterexample :
    save_tasks [] (WriteOutcome.ioError "disk full") = Except.ok () := rfl

/-- Claim C5 as amended: a write error during `save_accounts` (bank
variant) propagates to the caller; a write error during `save_tasks` (task
variant) is logged and swallowed, the call returning normally. -/
theorem C5_amended_save_propagation (accounts : List (String × Account))
    (tasks : List Task) (msg : String) :
    save_accounts accounts (WriteOutcome.ioError msg) = Except.error msg
    ∧ save_tasks tasks (WriteOutcome.ioError msg) = Except.ok () :=
  ⟨rfl, rfl⟩

/-! ## Claim C10 -/

/-- Claim C10: the pytest-1 `BankAccount` never raises: a non-positive
deposit, and a withdrawal that is non-positive or exceeds the balance,
leave the balance and the transaction log unchanged; both methods return
the current balance in every case. -/
theorem C10_bank_account_silent (b : BankAccount) (amt : ℚ) :
    (amt ≤ 0 → b.deposit amt = (b, b.balance))
    ∧ ((amt ≤ 0 ∨ b.balance < amt) → b.withdraw amt = (b, b.balance))
    ∧ (b.deposit amt).2 = (b.deposit amt).1.balance
    ∧ (b.withdraw amt).2 = (b.withdraw amt).1.balance := by
  refine ⟨?_, ?_, ?_, ?_⟩
  · intro h
    unfold BankAccount.deposit
    rw [if_neg (by linarith)]
  · intro h
    unfold BankAccount.withdraw
    rw [if_neg ?_]
    rintro ⟨h1, h2⟩
    rcases h with h | h
    · linarith
    · linarith
  · unfold BankAccount.deposit
    by_cases h : 0 < amt
    · rw [if_pos h]
    · rw [if_neg h]
  · unfold BankAccount.withdraw
    by_cases h : 0 < amt ∧ amt ≤ b.balance
    · rw [if_pos h]
    · rw [if_neg h]

/-- Witness for C10: with balance 10 and empty log, depositing -5 and
withdrawing 20 are both silent no-ops returning 10. -/
theorem C10_bank_account_silent_witness :
    BankAccount.deposit ⟨10, []⟩ (-5) = (⟨10, []⟩, 10)
    ∧ BankAccount.withdraw ⟨10, []⟩ 20 = (⟨10, []⟩, 10) := by
  constructor
  · exact (C10_bank_account_silent ⟨10, []⟩ (-5)).1 (by norm_num)
  · exact (C10_bank_account_silent ⟨10, []⟩ 20).2.1 (Or.inr (by norm_num))

/-! ## Claim C6: identity freshness -/

theorem foldl_digits_zeros (k : ℕ) :
    List.foldl (fun acc c => acc * 10 + (c.toNat - 48)) 0
      (List.replicate k '0') = 0 := by
  induction k with
  | zero => rfl
  | succ k ih =>
    rw [List.replicate_succ, List.foldl_cons]
    exact ih

theorem digitsVal_append_zeros (k : ℕ) (l : List Char) :
    digitsVal (List.replicate k '0' ++ l) = digitsVal l := by
  unfold digitsVal
  rw [List.foldl_append, foldl_digits_zeros]

theorem digitsVal_padZero4 (l : List Char) :
    digitsVal (padZero4 l) = digitsVal l := by
  unfold padZero4
  split
  · exact digitsVal_append_zeros _ l
  · rfl

theorem digitsVal_natDigits (n : ℕ) : digitsVal (natDigits n) = n := by
  induction n using Nat.strong_induction_on with
  | _ n ih =>
    unfold natDigits
    split
    case isTrue h =>
      have hd : ∀ m : Fin 10, digitsVal [Nat.digitChar m.val] = m.val := by
        decide
      exact hd ⟨n, h⟩
    case isFalse h =>
      have hlt : n / 10 < n := Nat.div_lt_self (by omega) (by decide)
      have hrec := ih (n / 10) hlt
      unfold digitsVal at hrec ⊢
      rw [List.foldl_append, hrec]
      show (n / 10) * 10 + ((Nat.digitChar (n % 10)).toNat - 48) = n
      have h10 : n % 10 < 10 := Nat.mod_lt _ (by decide)
      have hd : ∀ m : Fin 10, (Nat.digitChar m.val).toNat - 48 = m.val := by
        decide
      have hd2 : (Nat.digitChar (n % 10)).toNat - 48 = n % 10 :=
        hd ⟨n % 10, h10⟩
      rw [hd2]
      omega

theorem accCode_injective : Function.Injective accCode := by
  intro m n h
  have h2 : 'A' :: 'C' :: 'C' :: padZero4 (natDigits m)
      = 'A' :: 'C' :: 'C' :: padZero4 (natDigits n) := congrArg String.data h
  have h3 : padZero4 (natDigits m) = padZero4 (natDigits n) := by
    simpa using h2
  have h4 := congrArg digitsVal h3
  rwa [digitsVal_padZero4, digitsVal_padZero4, digitsVal_natDigits,
    digitsVal_natDigits] at h4

theorem codes_succ (k : ℕ) : codes (k + 1) = codes k ++ [accCode (k + 1)] := by
  unfold codes
  rw [List.range_succ, List.map_append]
  rfl

theorem codes_length (k : ℕ) : (codes k).length = k := by
  simp [codes]

theorem codes_nodup (k : ℕ) : (codes k).Nodup :=
  List.Nodup.map
    (fun a b hab => by have := accCode_injective hab; omega)
    (List.nodup_range k)

theorem mem_keys_of_dictGet {accs : List (String × Account)} {k : String}
    {a : Account} (h : dictGet accs k = some a) :
    k ∈ accs.map Prod.fst := by
  induction accs with
  | nil => simp [dictGet] at h
  | cons p rest ih =>
    obtain ⟨k2, a2⟩ := p
    unfold dictGet at h
    by_cases hc : k2 = k
    · simp [hc]
    · rw [if_neg hc] at h
      simp [ih h]

theorem dictSet_keys_of_mem {accs : List (String × Account)} {k : String}
    (a : Account) (h : k ∈ accs.map Prod.fst) :
    (dictSet accs k a).map Prod.fst = accs.map Prod.fst := by
  induction accs with
  | nil => simp at h
  | cons p rest ih =>
    obtain ⟨k2, a2⟩ := p
    unfold dictSet
    by_cases hc : k2 = k
    · rw [if_pos hc]
      simp
    · rw [if_neg hc]
      simp only [List.map_cons] at h ⊢
      rcases List.mem_cons.mp h with h2 | h2
      · exact absurd h2.symm hc
      · rw [ih h2]

theorem dictSet_keys_of_not_mem {accs : List (String × Account)} {k : String}
    (a : Account) (h : k ∉ accs.map Prod.fst) :
    (dictSet accs k a).map Prod.fst = accs.map Prod.fst ++ [k] := by
  induction accs with
  | nil => rfl
  | cons p rest ih =>
    obtain ⟨k2, a2⟩ := p
    unfold dictSet
    by_cases hc : k2 = k
    · exact absurd (by simp [hc]) h
    · rw [if_neg hc]
      have h2 : k ∉ rest.map Prod.fst := fun hh => h (by simp [hh])
      simp only [List.map_cons, ih h2]
      rfl

theorem bankStep_create_neg (accs : List (String × Account))
    (holder : String) (bal : ℚ) (hb : bal < 0) :
    bankStep accs (BankOp.create holder bal) = (accs, none) := by
  simp only [bankStep, create_account]
  rw [if_pos hb]

theorem bankStep_create_ok (accs : List (String × Account))
    (holder : String) (bal : ℚ) (hb : ¬ bal < 0) :
    bankStep accs (BankOp.create holder bal)
      = (dictSet accs (accCode (accs.length + 1))
           ⟨accCode (accs.length + 1), holder, bal⟩,
         some (accCode (accs.length + 1))) := by
  simp only [bankStep, create_account]
  rw [if_neg hb]

theorem BankService_deposit_keys (accs : List (String × Account))
    (n : String) (amt : ℚ) :
    ((BankService.deposit accs n amt).accounts).map Prod.fst
      = accs.map Prod.fst := by
  unfold BankService.deposit
  rcases hg : dictGet accs n with _ | a
  · rfl
  · dsimp only
    rcases hd : a.deposit amt with e | a2
    · rfl
    · exact dictSet_keys_of_mem _ (mem_keys_of_dictGet hg)

theorem BankService_withdraw_keys (accs : List (String × Account))
    (n : String) (amt : ℚ) :
    ((BankService.withdraw accs n amt).accounts).map Prod.fst
      = accs.map Prod.fst := by
  unfold BankService.withdraw
  rcases hg : dictGet accs n with _ | a
  · rfl
  · dsimp only
    rcases hd : a.withdraw amt with e | a2
    · rfl
    · exact dictSet_keys_of_mem _ (mem_keys_of_dictGet hg)

theorem transfer_keys (accs : List (String × Account))
    (f t : String) (amt : ℚ) :
    ((transfer accs f t amt).accounts).map Prod.fst = accs.map Prod.fst := by
  unfold transfer
  rcases hf : dictGet accs f with _ | fa <;>
    rcases ht : dictGet accs t with _ | ta
  · rfl
  · rfl
  · rfl
  · dsimp only
    rcases hw : fa.withdraw amt with e | fa2
    · rfl
    · dsimp only
      have hk : (dictSet accs f fa2).map Prod.fst = accs.map Prod.fst :=
        dictSet_keys_of_mem _ (mem_keys_of_dictGet hf)
      rcases hd : ((if t = f then fa2 else ta).deposit amt) with e | ta2
      · exact hk
      · rw [dictSet_keys_of_mem _ (hk ▸ mem_keys_of_dictGet ht), hk]

theorem bankRun_inv_aux (ops : List BankOp) :
    ∀ (accs : List (String × Account)) (asg : List String) (k : ℕ),
      accs.map Prod.fst = codes k → asg = codes k →
      ∃ k2, (ops.foldl bankAccum (accs, asg)).1.map Prod.fst = codes k2
        ∧ (ops.foldl bankAccum (accs, asg)).2 = codes k2 := by
  induction ops with
  | nil => exact fun accs asg k h1 h2 => ⟨k, h1, h2⟩
  | cons op rest ih =>
    intro accs asg k h1 h2
    rw [List.foldl_cons]
    rcases op with ⟨holder, bal⟩ | ⟨n, amt⟩ | ⟨n, amt⟩ | ⟨f, t, amt⟩
    · by_cases hb : bal < 0
      · have h3 : bankAccum (accs, asg) (BankOp.create holder bal)
            = (accs, asg) := by
          unfold bankAccum
          rw [bankStep_create_neg accs holder bal hb]
          simp
        rw [h3]
        exact ih accs asg k h1 h2
      · have hlen : accs.length = k := by
          have hh := congrArg List.length h1
          simpa [codes] using hh
        have hnot : accCode (k + 1) ∉ accs.map Prod.fst := by
          rw [h1]
          intro hmem
          unfold codes at hmem
          rw [List.mem_map] at hmem
          obtain ⟨i, hik, hacc⟩ := hmem
          rw [List.mem_range] at hik
          have := accCode_injective hacc
          omega
        have h3 : bankAccum (accs, asg) (BankOp.create holder bal)
            = (dictSet accs (accCode (k + 1)) ⟨accCode (k + 1), holder, bal⟩,
               asg ++ [accCode (k + 1)]) := by
          unfold bankAccum
          rw [bankStep_create_ok accs holder bal hb, hlen]
          rfl
        rw [h3]
        apply ih _ _ (k + 1)
        · rw [dictSet_keys_of_not_mem _ hnot, h1, codes_succ]
        · rw [h2, codes_succ]
    · have h3 : bankAccum (accs, asg) (BankOp.deposit n amt)
          = ((BankService.deposit accs n amt).accounts, asg) := by
        unfold bankAccum bankStep
        simp
      rw [h3]
      exact ih _ _ k (by rw [BankService_deposit_keys, h1]) h2
    · have h3 : bankAccum (accs, asg) (BankOp.withdraw n amt)
          = ((BankService.withdraw accs n amt).accounts, asg) := by
        unfold bankAccum bankStep
        simp
      rw [h3]
      exact ih _ _ k (by rw [BankService_withdraw_keys, h1]) h2
    · have h3 : bankAccum (accs, asg) (BankOp.transfer f t amt)
          = ((transfer accs f t amt).accounts, asg) := by
        unfold bankAccum bankStep
        simp
      rw [h3]
      exact ih _ _ k (by rw [transfer_keys, h1]) h2

theorem le_foldl_max_init (l : List Int) (a : Int) : a ≤ l.foldl max a := by
  induction l generalizing a with
  | nil => exact le_refl a
  | cons y ys ih => exact le_trans (le_max_left a y) (ih (max a y))

theorem le_foldl_max_mem (l : List Int) (a x : Int) (h : x ∈ l) :
    x ≤ l.foldl max a := by
  induction l generalizing a with
  | nil => cases h
  | cons y ys ih =>
    rw [List.foldl_cons]
    rcases List.mem_cons.mp h with rfl | h2
    · exact le_trans (le_max_right a x) (le_foldl_max_init ys (max a x))
    · exact ih (max a y) h2

theorem le_maxIdD {tasks : List Task} {t : Task} (h : t ∈ tasks) :
    t.task_id ≤ maxIdD tasks := by
  unfold maxIdD
  rcases tasks with _ | ⟨t0, rest⟩
  · cases h
  · show t.task_id ≤ (rest.map (fun u => u.task_id)).foldl max t0.task_id
    rcases List.mem_cons.mp h with rfl | h2
    · exact le_foldl_max_init _ _
    · exact le_foldl_max_mem _ _ _ (List.mem_map_of_mem _ h2)

theorem create_task_fresh {tasks : List Task}
    {title description due_date : String} {nt : Task}
    (h : (create_task tasks title description due_date).result
        = Except.ok nt) :
    ∀ t ∈ tasks, nt.task_id ≠ t.task_id := by
  intro t ht
  unfold create_task at h
  by_cases hc : title = "" ∨ description = "" ∨ due_date = ""
  · rw [if_pos hc] at h
    simp at h
  · rw [if_neg hc] at h
    have h2 : Except.ok
        (⟨maxIdD tasks + 1, title, description, due_date, "To Do"⟩ : Task)
        = Except.ok nt := h
    injection h2 with h3
    rw [← h3]
    have h4 := le_maxIdD ht
    show maxIdD tasks + 1 ≠ t.task_id
    omega

theorem natDigits_two : natDigits 2 = ['2'] := by
  unfold natDigits
  rfl

theorem accCode_two : accCode 2 = "ACC0002" := by
  unfold accCode
  rw [natDigits_two]
  rfl

theorem bank_preloaded_assigns :
    (bankRunFrom [("ACC0002", ⟨"ACC0002", "Carol", 5⟩)]
        [BankOp.create "Alice" 0, BankOp.create "Bob" 0]).2
      = ["ACC0002", "ACC0002"] := by
  have h1 : bankAccum ([("ACC0002", ⟨"ACC0002", "Carol", 5⟩)], [])
      (BankOp.create "Alice" 0)
      = ([("ACC0002", ⟨"ACC0002", "Alice", 0⟩)], ["ACC0002"]) := by
    unfold bankAccum
    rw [bankStep_create_ok _ _ _ (by norm_num)]
    show (dictSet [("ACC0002", ⟨"ACC0002", "Carol", 5⟩)] (accCode 2)
        ⟨accCode 2, "Alice", 0⟩, [] ++ [accCode 2]) = _
    rw [accCode_two]
    rfl
  have h2 : bankAccum ([("ACC0002", ⟨"ACC0002", "Alice", 0⟩)], ["ACC0002"])
      (BankOp.create "Bob" 0)
      = ([("ACC0002", ⟨"ACC0002", "Bob", 0⟩)], ["ACC0002", "ACC0002"]) := by
    unfold bankAccum
    rw [bankStep_create_ok _ _ _ (by norm_num)]
    show (dictSet [("ACC0002", ⟨"ACC0002", "Alice", 0⟩)] (accCode 2)
        ⟨accCode 2, "Bob", 0⟩, ["ACC0002"] ++ [accCode 2]) = _
    rw [accCode_two]
    rfl
  unfold bankRunFrom
  rw [List.foldl_cons, h1, List.foldl_cons, h2, List.foldl_nil]

/-- Counterexample to claim C6 as stated, in both variants.  Task variant:
the run create, create, delete the second task, create assigns the ids
1, 2, 2 — the third create re-assigns an identity previously assigned by
create in the same instance, because `max(ids) + 1` forgets deleted ids.
Bank variant: on an instance whose store was loaded from a file already
containing the key `ACC0002`, the first create replaces that binding and
assigns `ACC0002` (the code depends only on the collection size, which
stays 1), so the second create assigns `ACC0002` again — equal to an
identity previously assigned by create in the same instance. -/
theorem C6_counterexample :
    ((taskRun [TaskOp.create "a" "b" "c", TaskOp.create "d" "e" "f",
        TaskOp.delete 2, TaskOp.create "g" "h" "i"]).2 = [1, 2, 2]
      ∧ ¬ (taskRun [TaskOp.create "a" "b" "c", TaskOp.create "d" "e" "f",
        TaskOp.delete 2, TaskOp.create "g" "h" "i"]).2.Nodup)
    ∧ ((bankRunFrom [("ACC0002", ⟨"ACC0002", "Carol", 5⟩)]
          [BankOp.create "Alice" 0, BankOp.create "Bob" 0]).2
        = ["ACC0002", "ACC0002"]
      ∧ ¬ (bankRunFrom [("ACC0002", ⟨"ACC0002", "Carol", 5⟩)]
          [BankOp.create "Alice" 0, BankOp.create "Bob" 0]).2.Nodup) := by
  refine ⟨⟨rfl, ?_⟩, ⟨bank_preloaded_assigns, ?_⟩⟩
  · intro h
    rw [show (taskRun [TaskOp.create "a" "b" "c", TaskOp.create "d" "e" "f",
        TaskOp.delete 2, TaskOp.create "g" "h" "i"]).2 = [1, 2, 2] from rfl]
      at h
    simp at h
  · intro h
    rw [bank_preloaded_assigns] at h
    simp at h

/-- Claim C6 as amended: in the bank variant every sequence of service
calls starting from an empty store assigns pairwise distinct account
numbers; in the task variant a successful create assigns an id different
from the id of every task currently in the collection (deleted ids may be
re-assigned). -/
theorem C6_amended_fresh_identity :
    (∀ ops : List BankOp, ((bankRun ops).2).Nodup)
    ∧ (∀ (tasks : List Task) (title description due_date : String)
        (nt : Task),
        (create_task tasks title description due_date).result
            = Except.ok nt →
        ∀ t ∈ tasks, nt.task_id ≠ t.task_id) := by
  constructor
  · intro ops
    obtain ⟨k2, h1, h2⟩ := bankRun_inv_aux ops [] [] 0 rfl rfl
    show (List.foldl bankAccum ([], []) ops).2.Nodup
    rw [h2]
    exact codes_nodup k2
  · exact fun tasks title description due_date nt h =>
      create_task_fresh h

/-- Witness for C6 as amended: two bank creates from empty assign distinct
numbers, and creating a task over the singleton list with id 1 assigns the
fresh id 2. -/
theorem C6_amended_fresh_identity_witness :
    (bankRun [BankOp.create "Alice" 100, BankOp.create "Bob" 0]).2.Nodup
    ∧ (∀ t ∈ [Task.mk 1 "a" "b" "c" "To Do"],
        (Task.mk 2 "x" "y" "z" "To Do").task_id ≠ t.task_id) := by
  constructor
  · exact C6_amended_fresh_identity.1
      [BankOp.create "Alice" 100, BankOp.create "Bob" 0]
  · exact C6_amended_fresh_identity.2 [⟨1, "a", "b", "c", "To Do"⟩]
      "x" "y" "z" ⟨2, "x", "y", "z", "To Do"⟩ rfl

end UnitTesting
